import Mathlib

/-!
Shallow embedding of the "Paws & Hugs" pet-adoption backend (src/main.py)
together with a model of its document store.

The repository ships only `main.py` under src/; the modules `database.py`
(the DocumentStore access layer: `db`, `create_document`, `get_documents`)
and `schemas.py` (the `Adoptionrequest` payload model) are imported by
`main.py` but are not present.  Where their behaviour decides a claim it is
modelled from the spec (spec sections 2, 3, 4.1), and each such definition
carries a doc comment starting with "Modelled from the spec:".

Conventions of the embedding:
* Python `Optional[str]` query parameters become `Option String`.
* A stored document field that may be absent becomes an `Option` field
  (`none` = the key is missing from the document).
* Store identifiers (Mongo ObjectId values) are modelled as `Nat`; their
  textual form `str(oid)` is a hex rendering `idStr`.
* Fallible handlers return `Except HErr _` where `HErr` models
  `fastapi.HTTPException` (status code and detail).
* Monetary/float fixture values (`age_years`) are modelled as `ℚ`.
-/

/-- Model of `fastapi.HTTPException`: an HTTP status code plus a detail
message, raised by a handler. -/
structure HErr where
  status : Nat
  detail : String
deriving Repr, DecidableEq

/-- Python truthiness of an `Optional[str]` value: `if species:` is taken
when the value is present and is not the empty string. -/
def pyTruthy : Option String → Bool
  | none => false
  | some s => s ≠ ""

/-- Lowercasing of a string, character by character (model of
case-insensitive comparison). -/
def lowerChars (s : String) : List Char :=
  s.toList.map Char.toLower

/-- Whether `pat` is a leading segment of `hay` (character lists). -/
def leadSeg : List Char → List Char → Bool
  | _, [] => true
  | [], _ :: _ => false
  | c :: cs, d :: ds => c == d && leadSeg cs ds

/-- Whether `pat` occurs contiguously somewhere inside `hay`. -/
def hasSub (pat : List Char) : List Char → Bool
  | [] => pat.isEmpty
  | c :: rest => leadSeg (c :: rest) pat || hasSub pat rest

/-- Case-insensitive substring containment on strings. -/
def ciContains (hay pat : String) : Bool :=
  hasSub (lowerChars pat) (lowerChars hay)

/-- Case-insensitive substring containment against a document field that
may be missing: a missing field never matches. -/
def optCiContains (fld : Option String) (pat : String) : Bool :=
  match fld with
  | none => false
  | some s => ciContains s pat

/-- One document of the `pet` collection.  `_id` is always present (the
store assigns it); every other key may be absent from the raw document,
which the embedding writes as `none`. -/
structure PetDoc where
  _id : Nat
  name : Option String := none
  species : Option String := none
  age_years : Option ℚ := none
  gender : Option String := none
  size : Option String := none
  description : Option String := none
  photo_url : Option String := none
  location : Option String := none
  is_adopted : Option Bool := none
deriving Repr, DecidableEq

/-- Hex digits of a natural number, most significant first, with a fuel
argument making the recursion structural (any fuel above the number of
digits yields the same result). -/
def hexRepAux : Nat → Nat → List Char
  | 0, _ => []
  | fuel + 1, n =>
      if n < 16 then [Nat.digitChar n]
      else hexRepAux fuel (n / 16) ++ [Nat.digitChar (n % 16)]

/-- Hex digits of a natural number, most significant first (model of the
textual rendering of a store identifier, which for ObjectId is a hex
string). -/
def hexRep (n : Nat) : List Char :=
  hexRepAux (n + 1) n

/-- Modelled from the spec: the store-assigned identifier is opaque; its
textual form `str(oid)` is the hex rendering of the identifier. -/
def idStr (n : Nat) : String :=
  String.mk (hexRep n)

/-- The public Pet view (`PetOut` in main.py): the pydantic response model
for `GET /api/pets`. -/
structure PetOut where
  id : String
  name : String
  species : String
  age_years : ℚ
  gender : String
  size : String
  description : Option String := none
  photo_url : Option String := none
  location : Option String := none
  is_adopted : Bool
deriving Repr, DecidableEq

/-- Embedding of `PetOut.from_mongo`.  The Python body reads each key with
`doc.get` (returning `None` when absent) and passes the values to the
pydantic constructor `PetOut(...)`.  Pydantic validates the declared field
types: a required field (`name: str`, `species: str`, `age_years: float`,
`gender: str`, `size: str`) given `None` raises a validation error, which
the embedding returns as `Except.error`.  `id` is `str(doc.get("_id"))`
and always succeeds; `description`, `photo_url`, `location` are declared
`Optional` and pass through; `is_adopted` uses the lookup default `False`
when the key is absent. -/
def PetOut.from_mongo (d : PetDoc) : Except String PetOut :=
  match d.name, d.species, d.age_years, d.gender, d.size with
  | some nm, some sp, some ay, some g, some sz =>
      .ok { id := idStr d._id, name := nm, species := sp, age_years := ay,
            gender := g, size := sz, description := d.description,
            photo_url := d.photo_url, location := d.location,
            is_adopted := d.is_adopted.getD false }
  | _, _, _, _, _ => .error "validation error for PetOut"

/-- The filter document built by `list_pets`: it always carries
`is_adopted: False`, and optionally an exact `species` match, an exact
`size` match, and the `$or` regex group for `q`. -/
structure PetFilter where
  adopted : Bool
  species : Option String := none
  size : Option String := none
  q : Option String := none
deriving Repr, DecidableEq

/-- Embedding of the filter construction in `list_pets` (main.py lines
138-148): start from `{"is_adopted": False}` and add each optional filter
only when the query parameter is truthy (present and non-empty). -/
def buildFilter (species size q : Option String) : PetFilter :=
  { adopted := false,
    species := if pyTruthy species then species else none,
    size := if pyTruthy size then size else none,
    q := if pyTruthy q then q else none }

/-- Modelled from the spec: `get_documents` (database.py, absent from src)
evaluates the filter document against each stored document with the
store's matching semantics.  Equality filters (`is_adopted`, `species`,
`size`) match a document whose key is present with exactly that value; the
`$or` group for `q` matches when at least one of `name`, `description`,
`location` matches the pattern, which per spec section 4.1 is
case-insensitive substring containment, a missing key never matching. -/
def petMatches (f : PetFilter) (d : PetDoc) : Bool :=
  (d.is_adopted == some f.adopted)
  && (match f.species with
      | none => true
      | some s => d.species == some s)
  && (match f.size with
      | none => true
      | some s => d.size == some s)
  && (match f.q with
      | none => true
      | some s => optCiContains d.name s || optCiContains d.description s
          || optCiContains d.location s)

/-- The documents returned by the store for the `list_pets` query: the pet
collection filtered by the query document. -/
def listPetsDocs (pets : List PetDoc) (species size q : Option String) :
    List PetDoc :=
  pets.filter (petMatches (buildFilter species size q))

/-- Left-to-right effectful map over a list, failing on the first failing
element: the model of the list comprehension
`[PetOut.from_mongo(d) for d in docs]`, where a raising element aborts the
whole comprehension. -/
def mapE {α β : Type} (f : α → Except String β) : List α → Except String (List β)
  | [] => .ok []
  | x :: xs =>
      match f x with
      | .error e => .error e
      | .ok y =>
          match mapE f xs with
          | .error e => .error e
          | .ok ys => .ok (y :: ys)

/-- Embedding of the `GET /api/pets` handler `list_pets`: build the filter
from the query parameters, fetch the matching documents, and map each to
the public Pet view. -/
def list_pets (pets : List PetDoc) (species size q : Option String) :
    Except String (List PetOut) :=
  mapE PetOut.from_mongo (listPetsDocs pets species size q)

/-- One document of the `adoptionrequest` collection: the persisted
adoption-request payload plus its store-assigned identifier. -/
structure ReqDoc where
  _id : Nat
  pet_id : String
deriving Repr, DecidableEq

/-- Modelled from the spec: the `Adoptionrequest` payload model
(schemas.py, absent from src).  It must include `pet_id`; the remaining
requester fields are opaque to the core and are collapsed into one opaque
string. -/
structure Adoptionrequest where
  pet_id : String
  requester : String := ""
deriving Repr, DecidableEq

/-- The state of the document store: the two collections this core
touches, plus a counter supplying fresh store-assigned identifiers.
Identifier freshness is the store invariant that every identifier already
present is below `nextId`. -/
structure DBState where
  pets : List PetDoc := []
  requests : List ReqDoc := []
  nextId : Nat := 0
deriving Repr, DecidableEq

/-- Modelled from the spec: `create_document` on the `pet` collection
(database.py, absent from src) inserts the document and assigns it a fresh
store identifier, returned to the caller.  The `_id` placeholder of the
argument is overwritten with the assigned identifier. -/
def insertPet (s : DBState) (d : PetDoc) : Nat × DBState :=
  (s.nextId,
   { s with pets := s.pets ++ [{ d with _id := s.nextId }],
            nextId := s.nextId + 1 })

/-- Modelled from the spec: `create_document` on the `adoptionrequest`
collection persists the payload under a fresh store-assigned identifier
and returns that identifier's textual form. -/
def insertRequest (s : DBState) (r : Adoptionrequest) : String × DBState :=
  (idStr s.nextId,
   { s with requests := s.requests ++ [{ _id := s.nextId, pet_id := r.pet_id }],
            nextId := s.nextId + 1 })

/-- Response body of `POST /seed`: `{"message": ..., "count": ...}`. -/
structure SeedResp where
  message : String
  count : Nat
deriving Repr, DecidableEq

/-- The hard-coded fixture records of `seed_pets` (main.py lines 96-130);
`_id` is a placeholder that the store overwrites at insertion. -/
def sample_pets : List PetDoc :=
  [ { _id := 0, name := some "Mocha", species := some "Dog",
      age_years := some (3/2 : ℚ), gender := some "Female",
      size := some "Small",
      description := some "Sweet, snuggly pup who loves belly rubs.",
      photo_url := some "https://images.unsplash.com/photo-1543466835-00a7907e9de1?w=900&q=80&auto=format&fit=crop",
      location := some "Sunnyvale Shelter", is_adopted := some false },
    { _id := 0, name := some "Miso", species := some "Cat",
      age_years := some (3 : ℚ), gender := some "Male",
      size := some "Small",
      description := some "Calm lap cat, purr motor included.",
      photo_url := some "https://images.unsplash.com/photo-1518791841217-8f162f1e1131?w=900&q=80&auto=format&fit=crop",
      location := some "Palo Alto Rescue", is_adopted := some false },
    { _id := 0, name := some "Taro", species := some "Rabbit",
      age_years := some (2 : ℚ), gender := some "Female",
      size := some "Small",
      description := some "Gentle bun who loves leafy greens.",
      photo_url := some "https://images.unsplash.com/photo-1548767797-d8c844163c4c?w=900&q=80&auto=format&fit=crop",
      location := some "Mountain View Haven", is_adopted := some false } ]

/-- Embedding of the `POST /seed` handler `seed_pets`.  The argument is
the global store handle `db` (`none` = not configured).  It counts the
pet collection; when non-empty it reports "Already seeded" with the
existing count and changes nothing; otherwise it inserts the fixture
records one by one and reports "Seeded" with the fixture count. -/
def seed_pets : Option DBState → Except HErr (SeedResp × DBState)
  | none => .error { status := 500, detail := "Database not configured" }
  | some s =>
      let count := s.pets.length
      if count > 0 then
        .ok ({ message := "Already seeded", count := count }, s)
      else
        .ok ({ message := "Seeded", count := sample_pets.length },
             sample_pets.foldl (fun st p => (insertPet st p).2) s)

/-- Whether a character is a hexadecimal digit (either case). -/
def isHexChar (c : Char) : Bool :=
  c.isDigit || ('a' ≤ c && c ≤ 'f') || ('A' ≤ c && c ≤ 'F')

/-- Numeric value of a hexadecimal digit character. -/
def hexDigitVal (c : Char) : Nat :=
  if c.isDigit then c.toNat - '0'.toNat
  else if 'a' ≤ c && c ≤ 'f' then c.toNat - 'a'.toNat + 10
  else c.toNat - 'A'.toNat + 10

/-- Numeric value of a hexadecimal string. -/
def hexVal (s : String) : Nat :=
  s.toList.foldl (fun a c => a * 16 + hexDigitVal c) 0

/-- Embedding of `ObjectId(req.pet_id)` (the bson ObjectId constructor on
a string): it succeeds exactly on a 24-character hexadecimal string, whose
value (hex digits read case-insensitively) is the store identifier; any
other string raises, which the embedding returns as `none`. -/
def parseObjectId (s : String) : Option Nat :=
  if s.length == 24 && s.toList.all isHexChar then some (hexVal s)
  else none

/-- Response body of a successful `POST /api/adopt`. -/
structure AdoptResp where
  message : String
  request_id : String
deriving Repr, DecidableEq

/-- One operation issued to the store by the `POST /api/adopt` handler,
recorded in order: the existence lookup `find_one({"_id": oid})` and the
insertion of the adoption-request document. -/
inductive StoreOp where
  | findOnePet (oid : Nat)
  | insertReq (r : Adoptionrequest)
deriving Repr, DecidableEq

/-- Embedding of the `POST /api/adopt` handler `create_adoption_request`.
The first component is the HTTP outcome, the second the resulting store
handle, the third the trace of store operations issued.  The handler
checks configuration, then parses `pet_id` (400 on failure, before any
store access), then looks the pet up by identifier only (404 when absent,
regardless of `is_adopted`), then persists the request and returns the
newly assigned identifier. -/
def create_adoption_request (db : Option DBState) (req : Adoptionrequest) :
    Except HErr AdoptResp × Option DBState × List StoreOp :=
  match db with
  | none => (.error { status := 500, detail := "Database not configured" },
             none, [])
  | some s =>
      match parseObjectId req.pet_id with
      | none => (.error { status := 400, detail := "Invalid pet ID" },
                 some s, [])
      | some oid =>
          match s.pets.find? (fun d => d._id == oid) with
          | none => (.error { status := 404, detail := "Pet not found" },
                     some s, [.findOnePet oid])
          | some _ =>
              let (reqId, s1) := insertRequest s req
              (.ok { message := "Request received", request_id := reqId },
               some s1, [.findOnePet oid, .insertReq req])

/-- Model of the live store handle as seen by the `/test` endpoint: its
`name` attribute (when present) and the outcome of
`list_collection_names()`, which either returns the collection names or
raises with an exception message. -/
structure DbHandle where
  name : Option String := none
  listCollectionNames : Except String (List String)
deriving Repr

/-- Presence of the two environment settings read by `/test`:
`DATABASE_URL` and `DATABASE_NAME` (`true` = the variable is set and
non-empty, the truthiness `os.getenv` feeds into the conditional). -/
structure Env where
  databaseUrlSet : Bool
  databaseNameSet : Bool
deriving Repr, DecidableEq

/-- The `/test` response body (`StatusReport`). -/
structure StatusReport where
  backend : String
  database : String
  database_url : String
  database_name : String
  connection_status : String
  collections : List String
deriving Repr, DecidableEq

/-- Truncation of an exception message as `str(e)[:50]`: the first fifty
characters. -/
def trunc50 (e : String) : String :=
  String.mk (e.toList.take 50)

/-- Embedding of the `GET /test` handler `test_database`.  It starts from
the default report; when the handle is configured it fills in the
connected fields, probes `list_collection_names()` inside a try/except
that downgrades any exception to a truncated message in the `database`
field, keeps at most ten collection names, and finally overwrites the
`database_url` and `database_name` fields with the set/unset flags of the
two environment variables.  The handler is a total function of the store
handle and environment: no probe outcome escapes as a fault. -/
def test_database (db : Option DbHandle) (env : Env) : StatusReport :=
  let base : StatusReport :=
    { backend := "✅ Running", database := "❌ Not Available",
      database_url := "", database_name := "",
      connection_status := "Not Connected", collections := [] }
  let probed : StatusReport :=
    match db with
    | none => { base with database := "⚠️  Available but not initialized" }
    | some h =>
        let connected :=
          { base with database := "✅ Available",
                      connection_status := "Connected" }
        match h.listCollectionNames with
        | .ok cols =>
            { connected with collections := cols.take 10,
                             database := "✅ Connected & Working" }
        | .error e =>
            { connected with
                database := "⚠️  Connected but Error: " ++ trunc50 e }
  { probed with
      database_url := if env.databaseUrlSet then "✅ Set" else "❌ Not Set",
      database_name := if env.databaseNameSet then "✅ Set" else "❌ Not Set" }

/-! Helper lemmas shared by the claim theorems. -/

theorem mapE_ok_mem {α β : Type} (f : α → Except String β) :
    ∀ (xs : List α) (ys : List β), mapE f xs = .ok ys →
      ∀ y ∈ ys, ∃ x ∈ xs, f x = .ok y := by
  intro xs
  induction xs with
  | nil =>
      intro ys h y hy
      simp only [mapE] at h
      cases h
      simp at hy
  | cons x xs ih =>
      intro ys h y hy
      simp only [mapE] at h
      cases hx : f x with
      | error e => rw [hx] at h; cases h
      | ok b =>
          rw [hx] at h
          cases hxs : mapE f xs with
          | error e => rw [hxs] at h; cases h
          | ok bs =>
              rw [hxs] at h
              cases h
              rcases List.mem_cons.mp hy with hyb | hybs
              · exact ⟨x, List.mem_cons_self x xs, hyb ▸ hx⟩
              · obtain ⟨x', hx', hfx'⟩ := ih bs hxs y hybs
                exact ⟨x', List.mem_cons_of_mem x hx', hfx'⟩

theorem from_mongo_ok {d : PetDoc} {o : PetOut}
    (h : PetOut.from_mongo d = .ok o) :
    o.id = idStr d._id ∧ d.name = some o.name ∧ d.species = some o.species ∧
    d.age_years = some o.age_years ∧ d.gender = some o.gender ∧
    d.size = some o.size ∧ o.description = d.description ∧
    o.location = d.location ∧ o.is_adopted = d.is_adopted.getD false := by
  unfold PetOut.from_mongo at h
  split at h
  · rename_i nm sp ay g sz hnm hsp hay hg hsz
    cases h
    exact ⟨rfl, hnm, hsp, hay, hg, hsz, rfl, rfl, rfl⟩
  · cases h

theorem mem_listPetsDocs {pets : List PetDoc} {species size q : Option String}
    {d : PetDoc} (h : d ∈ listPetsDocs pets species size q) :
    d ∈ pets ∧ petMatches (buildFilter species size q) d = true := by
  unfold listPetsDocs at h
  exact List.mem_filter.mp h

theorem petMatches_adopted {f : PetFilter} {d : PetDoc}
    (h : petMatches f d = true) : d.is_adopted = some f.adopted := by
  unfold petMatches at h
  simp only [Bool.and_eq_true, beq_iff_eq] at h
  exact h.1.1.1

/-- C1: for every pet document with `is_adopted = true` and every
combination of the optional filters, the document is excluded from the
store query of `listPets`, and every Pet view in a successful `listPets`
result has `is_adopted = false`. -/
theorem listPets_excludes_adopted (pets : List PetDoc)
    (species size q : Option String) :
    (∀ d ∈ pets, d.is_adopted = some true →
        d ∉ listPetsDocs pets species size q) ∧
    (∀ outs, list_pets pets species size q = .ok outs →
        ∀ o ∈ outs, o.is_adopted = false) := by
  constructor
  · intro d _ had hmem
    have hm := (mem_listPetsDocs hmem).2
    have h1 := petMatches_adopted hm
    rw [had] at h1
    simp [buildFilter] at h1
  · intro outs houts o ho
    obtain ⟨d, hd, hfo⟩ := mapE_ok_mem _ _ _ houts o ho
    have hm := (mem_listPetsDocs hd).2
    have h1 := petMatches_adopted hm
    obtain ⟨-, -, -, -, -, -, -, -, hio⟩ := from_mongo_ok hfo
    rw [hio, h1]
    rfl

/-- Concrete pet document used by witnesses: an already-adopted pet. -/
def wAdopted : PetDoc :=
  { _id := 1, name := some "Rex", species := some "Dog",
    age_years := some 2, gender := some "Male", size := some "Large",
    is_adopted := some true }

/-- Concrete pet document used by witnesses: an adoptable pet. -/
def wFree : PetDoc :=
  { _id := 2, name := some "Bella", species := some "Cat",
    age_years := some 1, gender := some "Female", size := some "Small",
    description := some "Very calm cat", location := some "Austin",
    is_adopted := some false }

/-- The public view of `wFree`. -/
def wFreeOut : PetOut :=
  { id := "2", name := "Bella", species := "Cat", age_years := 1,
    gender := "Female", size := "Small", description := some "Very calm cat",
    location := some "Austin", is_adopted := false }

/-- Witness for C1 at a concrete store: the adopted document is excluded
and the returned view has `is_adopted = false`. -/
theorem listPets_excludes_adopted_witness :
    wAdopted ∉ listPetsDocs [wAdopted, wFree] none none none ∧
    wFreeOut.is_adopted = false :=
  ⟨(listPets_excludes_adopted [wAdopted, wFree] none none none).1 wAdopted
      (by simp) rfl,
   (listPets_excludes_adopted [wAdopted, wFree] none none none).2 [wFreeOut]
      rfl wFreeOut (by simp)⟩

theorem buildFilter_species_some {s : String} (hne : s ≠ "")
    (size q : Option String) :
    (buildFilter (some s) size q).species = some s := by
  simp [buildFilter, pyTruthy, hne]

theorem buildFilter_size_some {s : String} (hne : s ≠ "")
    (species q : Option String) :
    (buildFilter species (some s) q).size = some s := by
  simp [buildFilter, pyTruthy, hne]

theorem buildFilter_q_some {s : String} (hne : s ≠ "")
    (species size : Option String) :
    (buildFilter species size (some s)).q = some s := by
  simp [buildFilter, pyTruthy, hne]

/-- C2: every Pet view in a successful `listPets` result satisfies every
provided (non-empty) filter: exact match on species and size, and the
query, when provided, occurs as a case-insensitive substring of at least
one of name, description or location. -/
theorem listPets_satisfies_filters (pets : List PetDoc)
    (species size q : Option String) (outs : List PetOut)
    (h : list_pets pets species size q = .ok outs) :
    ∀ o ∈ outs,
      (∀ s, species = some s → s ≠ "" → o.species = s) ∧
      (∀ s, size = some s → s ≠ "" → o.size = s) ∧
      (∀ s, q = some s → s ≠ "" →
        (ciContains o.name s || optCiContains o.description s
          || optCiContains o.location s) = true) := by
  intro o ho
  obtain ⟨d, hd, hfo⟩ := mapE_ok_mem _ _ _ h o ho
  have hm := (mem_listPetsDocs hd).2
  obtain ⟨-, hnm, hsp, -, -, hsz, hdesc, hloc, -⟩ := from_mongo_ok hfo
  unfold petMatches at hm
  simp only [Bool.and_eq_true] at hm
  obtain ⟨⟨⟨-, hmsp⟩, hmsz⟩, hmq⟩ := hm
  refine ⟨?_, ?_, ?_⟩
  · intro s hs hne
    subst hs
    rw [buildFilter_species_some hne size q] at hmsp
    simp only [beq_iff_eq] at hmsp
    rw [hsp] at hmsp
    exact Option.some_inj.mp hmsp
  · intro s hs hne
    subst hs
    rw [buildFilter_size_some hne species q] at hmsz
    simp only [beq_iff_eq] at hmsz
    rw [hsz] at hmsz
    exact Option.some_inj.mp hmsz
  · intro s hs hne
    subst hs
    rw [buildFilter_q_some hne species size] at hmq
    rw [hnm, ← hdesc, ← hloc] at hmq
    exact hmq

/-- Witness for C2 at a concrete store and concrete filters. -/
theorem listPets_satisfies_filters_witness :
    wFreeOut.species = "Cat" ∧ wFreeOut.size = "Small" ∧
    (ciContains wFreeOut.name "CALM" || optCiContains wFreeOut.description "CALM"
      || optCiContains wFreeOut.location "CALM") = true := by
  have h := listPets_satisfies_filters [wAdopted, wFree] (some "Cat")
    (some "Small") (some "CALM") [wFreeOut] rfl wFreeOut (by simp)
  exact ⟨h.1 "Cat" rfl (by decide), h.2.1 "Small" rfl (by decide),
         h.2.2 "CALM" rfl (by decide)⟩

/-- C9: an empty-string `species`, `size` or `q` parameter behaves exactly
as an absent parameter in `listPets`. -/
theorem listPets_empty_string_filters (pets : List PetDoc) :
    (∀ size q, list_pets pets (some "") size q = list_pets pets none size q) ∧
    (∀ species q,
        list_pets pets species (some "") q = list_pets pets species none q) ∧
    (∀ species size,
        list_pets pets species size (some "") =
          list_pets pets species size none) := by
  refine ⟨fun size q => ?_, fun species q => ?_, fun species size => ?_⟩ <;> rfl

/-- C3: starting from an empty pet collection on a configured store, the
first `seed_pets` call inserts exactly the three fixture records (up to
their store-assigned identifiers) and reports count 3, and a second call
reports "Already seeded" with the same count 3 and leaves the store
unchanged. -/
theorem seed_pets_idempotent (s : DBState) (h : s.pets = []) :
    ∃ s1 : DBState,
      seed_pets (some s) = .ok ({ message := "Seeded", count := 3 }, s1) ∧
      s1.pets.length = 3 ∧
      (s1.pets.map fun d => { d with _id := 0 }) = sample_pets ∧
      s1.requests = s.requests ∧
      seed_pets (some s1) =
        .ok ({ message := "Already seeded", count := 3 }, s1) := by
  obtain ⟨pets, reqs, n⟩ := s
  simp only at h
  subst h
  exact ⟨_, rfl, rfl, rfl, rfl, rfl⟩

/-- Witness for C3 at a concrete empty store. -/
theorem seed_pets_idempotent_witness :
    DBState.pets { pets := [], requests := [], nextId := 5 } = [] ∧
    ∃ s1 : DBState,
      seed_pets (some { pets := [], requests := [], nextId := 5 }) =
        .ok ({ message := "Seeded", count := 3 }, s1) ∧
      s1.pets.length = 3 ∧
      (s1.pets.map fun d => { d with _id := 0 }) = sample_pets ∧
      s1.requests = DBState.requests { pets := [], requests := [], nextId := 5 } ∧
      seed_pets (some s1) =
        .ok ({ message := "Already seeded", count := 3 }, s1) :=
  ⟨rfl, seed_pets_idempotent { pets := [], requests := [], nextId := 5 } rfl⟩

/-- C4: on a configured store, a payload whose `pet_id` fails to parse as
an ObjectId yields HTTP 400 "Invalid pet ID", leaves the store unchanged,
and issues no store operation at all. -/
theorem adopt_invalid_id (s : DBState) (req : Adoptionrequest)
    (h : parseObjectId req.pet_id = none) :
    create_adoption_request (some s) req =
      (.error { status := 400, detail := "Invalid pet ID" }, some s, []) := by
  unfold create_adoption_request
  rw [h]

/-- Witness for C4 at a concrete malformed identifier. -/
theorem adopt_invalid_id_witness :
    parseObjectId "not-an-id" = none ∧
    create_adoption_request (some { pets := [wFree], requests := [], nextId := 3 })
        { pet_id := "not-an-id", requester := "" } =
      (.error { status := 400, detail := "Invalid pet ID" },
       some { pets := [wFree], requests := [], nextId := 3 }, []) :=
  ⟨rfl, adopt_invalid_id { pets := [wFree], requests := [], nextId := 3 }
      { pet_id := "not-an-id", requester := "" } rfl⟩

/-- C5: on a configured store, a well-formed `pet_id` matching no stored
pet yields HTTP 404 "Pet not found" after exactly the one lookup, with
the store unchanged; and the lookup checks only existence, so a stored
pet with that identifier makes the request succeed whatever its
`is_adopted` state. -/
theorem adopt_not_found (s : DBState) (req : Adoptionrequest) (oid : Nat)
    (hp : parseObjectId req.pet_id = some oid) :
    ((∀ d ∈ s.pets, d._id ≠ oid) →
        create_adoption_request (some s) req =
          (.error { status := 404, detail := "Pet not found" }, some s,
           [.findOnePet oid])) ∧
    (∀ d ∈ s.pets, d._id = oid →
        ∃ resp s1, create_adoption_request (some s) req =
          (.ok resp, some s1, [.findOnePet oid, .insertReq req])) := by
  constructor
  · intro hno
    have hf : s.pets.find? (fun d => d._id == oid) = none := by
      rw [List.find?_eq_none]
      intro d hd
      simp [hno d hd]
    simp only [create_adoption_request, hp, hf]
  · intro d hd hid
    have hsome : (s.pets.find? (fun d => d._id == oid)).isSome = true := by
      rw [List.find?_isSome]
      exact ⟨d, hd, by simp [hid]⟩
    cases hf : s.pets.find? (fun d => d._id == oid) with
    | none => rw [hf] at hsome; cases hsome
    | some pet =>
        simp only [create_adoption_request, hp, hf, insertRequest]
        exact ⟨_, _, rfl⟩

/-- Witness for C5: a well-formed unused identifier gives 404, and a
well-formed identifier of an already-adopted pet still succeeds. -/
theorem adopt_not_found_witness :
    (create_adoption_request (some { pets := [wAdopted], requests := [], nextId := 9 })
        { pet_id := "000000000000000000000005", requester := "" } =
      (.error { status := 404, detail := "Pet not found" },
       some { pets := [wAdopted], requests := [], nextId := 9 },
       [.findOnePet 5])) ∧
    (∃ resp s1,
      create_adoption_request (some { pets := [wAdopted], requests := [], nextId := 9 })
          { pet_id := "000000000000000000000001", requester := "" } =
        (.ok resp, some s1,
         [.findOnePet 1,
          .insertReq { pet_id := "000000000000000000000001", requester := "" }])) :=
  ⟨(adopt_not_found { pets := [wAdopted], requests := [], nextId := 9 }
      { pet_id := "000000000000000000000005", requester := "" } 5 rfl).1
      (by decide),
   (adopt_not_found { pets := [wAdopted], requests := [], nextId := 9 }
      { pet_id := "000000000000000000000001", requester := "" } 1 rfl).2
      wAdopted (by simp) rfl⟩

theorem hexDigitVal_digitChar :
    ∀ m : Fin 16, hexDigitVal (Nat.digitChar m.val) = m.val := by decide

theorem hexDigitVal_digitChar_of_lt {m : Nat} (h : m < 16) :
    hexDigitVal (Nat.digitChar m) = m :=
  hexDigitVal_digitChar ⟨m, h⟩

/-- Numeric value of a list of hex digit characters, most significant
first. -/
def hexValChars (l : List Char) : Nat :=
  l.foldl (fun a c => a * 16 + hexDigitVal c) 0

theorem hexValChars_hexRepAux :
    ∀ fuel n, n < 16 ^ fuel → hexValChars (hexRepAux fuel n) = n := by
  intro fuel
  induction fuel with
  | zero =>
      intro n h
      simp only [pow_zero, Nat.lt_one_iff] at h
      subst h
      rfl
  | succ fuel ih =>
      intro n h
      by_cases h16 : n < 16
      · simp only [hexRepAux, if_pos h16]
        show 0 * 16 + hexDigitVal (Nat.digitChar n) = n
        rw [hexDigitVal_digitChar_of_lt h16]
        omega
      · simp only [hexRepAux, if_neg h16]
        have hdiv : n / 16 < 16 ^ fuel := by
          rw [Nat.div_lt_iff_lt_mul (by omega : 0 < 16)]
          calc n < 16 ^ (fuel + 1) := h
            _ = 16 ^ fuel * 16 := by rw [pow_succ]
        have h2 := ih (n / 16) hdiv
        unfold hexValChars at h2 ⊢
        rw [List.foldl_append]
        simp only [List.foldl_cons, List.foldl_nil]
        rw [h2, hexDigitVal_digitChar_of_lt (Nat.mod_lt n (by omega))]
        omega

theorem hexValChars_hexRep (n : Nat) : hexValChars (hexRep n) = n := by
  apply hexValChars_hexRepAux
  calc n < 2 ^ n := Nat.lt_two_pow n
    _ ≤ 16 ^ n := Nat.pow_le_pow_left (by omega) n
    _ ≤ 16 ^ (n + 1) := Nat.pow_le_pow_right (by omega) (Nat.le_succ n)

theorem idStr_inj {a b : Nat} (h : idStr a = idStr b) : a = b := by
  have hdata : hexRep a = hexRep b := congrArg String.data h
  calc a = hexValChars (hexRep a) := (hexValChars_hexRep a).symm
    _ = hexValChars (hexRep b) := by rw [hdata]
    _ = b := hexValChars_hexRep b

theorem hexRep_ne_nil (n : Nat) : hexRep n ≠ [] := by
  unfold hexRep
  by_cases h : n < 16
  · simp [hexRepAux, h]
  · simp [hexRepAux, h]

theorem idStr_ne_empty (n : Nat) : idStr n ≠ "" := by
  intro h
  exact hexRep_ne_nil n (congrArg String.data h)

/-- The store state after the adoption-request insertion: one new
document in the `adoptionrequest` collection, the counter advanced. -/
def afterInsert (s : DBState) (p : String) : DBState :=
  { s with requests := s.requests ++ [{ _id := s.nextId, pet_id := p }],
           nextId := s.nextId + 1 }

/-- C6: on a configured store whose identifiers are all below the fresh
counter, a payload naming an existing pet succeeds: it returns
"Request received" with the newly assigned identifier, persists exactly
one new adoption-request document, and that identifier is non-empty and
distinct from the pet's identifier (both as stored identifiers and as
rendered strings). -/
theorem adopt_success (s : DBState) (req : Adoptionrequest) (oid : Nat)
    (pet : PetDoc) (hp : parseObjectId req.pet_id = some oid)
    (hf : s.pets.find? (fun d => d._id == oid) = some pet)
    (hfresh : ∀ d ∈ s.pets, d._id < s.nextId) :
    create_adoption_request (some s) req =
      (.ok { message := "Request received", request_id := idStr s.nextId },
       some (afterInsert s req.pet_id),
       [.findOnePet oid, .insertReq req]) ∧
    idStr s.nextId ≠ "" ∧
    s.nextId ≠ pet._id ∧
    idStr s.nextId ≠ idStr pet._id := by
  have hmem : pet ∈ s.pets := List.mem_of_find?_eq_some hf
  have hlt : pet._id < s.nextId := hfresh pet hmem
  refine ⟨?_, idStr_ne_empty s.nextId, by omega, ?_⟩
  · simp only [create_adoption_request, hp, hf, insertRequest, afterInsert]
  · intro h
    have := idStr_inj h
    omega

/-- Witness for C6 at a concrete store and payload. -/
theorem adopt_success_witness :
    create_adoption_request (some { pets := [wFree], requests := [], nextId := 7 })
        { pet_id := "000000000000000000000002", requester := "" } =
      (.ok { message := "Request received", request_id := idStr 7 },
       some (afterInsert { pets := [wFree], requests := [], nextId := 7 }
              "000000000000000000000002"),
       [.findOnePet 2,
        .insertReq { pet_id := "000000000000000000000002", requester := "" }]) ∧
    idStr 7 ≠ "" ∧ (7 : Nat) ≠ wFree._id ∧ idStr 7 ≠ idStr wFree._id :=
  adopt_success { pets := [wFree], requests := [], nextId := 7 }
    { pet_id := "000000000000000000000002", requester := "" } 2 wFree rfl rfl
    (by decide)

/-- C10: with the store unconfigured, `create_adoption_request` yields
HTTP 500 "Database not configured" for every payload — malformed
identifiers included, since the configuration check runs before
identifier validation — and issues no store operation. -/
theorem adopt_unconfigured (req : Adoptionrequest) :
    create_adoption_request none req =
      (.error { status := 500, detail := "Database not configured" },
       none, []) := rfl

/-- C7: `test_database` is a total function of the store handle and
environment — every probe outcome, a raising `list_collection_names`
included, yields a StatusReport (witnessed here by the `backend` field
always reading "✅ Running") — and a probe failure is reported inside the
report with the exception text truncated to at most fifty characters,
never propagated as a fault. -/
theorem test_database_absorbs_errors (db : Option DbHandle) (env : Env) :
    (test_database db env).backend = "✅ Running" ∧
    ∀ nm e, db = some { name := nm, listCollectionNames := .error e } →
      (test_database db env).database =
        "⚠️  Connected but Error: " ++ trunc50 e ∧
      (trunc50 e).length ≤ 50 := by
  constructor
  · obtain _ | ⟨nm, lc⟩ := db
    · rfl
    · obtain _ | _ := lc <;> rfl
  · intro nm e hdb
    subst hdb
    refine ⟨rfl, ?_⟩
    show (e.toList.take 50).length ≤ 50
    rw [List.length_take]
    exact Nat.min_le_left 50 _

/-- A long diagnostic message used by the C7 witness. -/
def wErr : String :=
  "boom: the store exploded spectacularly with a very long diagnostic message"

/-- Witness for C7 at a concrete failing store handle. -/
theorem test_database_absorbs_errors_witness :
    (test_database (some { name := some "app", listCollectionNames := .error wErr })
        { databaseUrlSet := false, databaseNameSet := true }).database =
      "⚠️  Connected but Error: " ++ trunc50 wErr ∧
    (trunc50 wErr).length ≤ 50 :=
  (test_database_absorbs_errors
    (some { name := some "app", listCollectionNames := .error wErr })
    { databaseUrlSet := false, databaseNameSet := true }).2 (some "app") wErr rfl

/-- C8 counterexample: a document missing the required `name` key is
rejected by the mapping — `doc.get("name")` yields `None` and the pydantic
constructor `PetOut(name=None, ...)` raises a validation error — refuting
the claim that such a document is not rejected. -/
theorem from_mongo_missing_name_rejected :
    PetOut.from_mongo { _id := 3, species := some "Dog", age_years := some 1,
                        gender := some "Male", size := some "Small" } =
      .error "validation error for PetOut" := rfl

/-- C8 amended: the mapping body performs no explicit field checks and
tolerates missing optional fields — `description`, `photo_url`,
`location` pass through (null when missing) and a missing `is_adopted`
maps to false — but a document missing any required field (`name`,
`species`, `age_years`, `gender`, `size`) is rejected by the Pet-view
model validation. -/
theorem from_mongo_passthrough (d : PetDoc) :
    (∀ nm sp ay g sz, d.name = some nm → d.species = some sp →
        d.age_years = some ay → d.gender = some g → d.size = some sz →
        PetOut.from_mongo d =
          .ok { id := idStr d._id, name := nm, species := sp, age_years := ay,
                gender := g, size := sz, description := d.description,
                photo_url := d.photo_url, location := d.location,
                is_adopted := d.is_adopted.getD false }) ∧
    ((d.name = none ∨ d.species = none ∨ d.age_years = none ∨
        d.gender = none ∨ d.size = none) →
      ∃ e, PetOut.from_mongo d = .error e) := by
  constructor
  · intro nm sp ay g sz h1 h2 h3 h4 h5
    unfold PetOut.from_mongo
    rw [h1, h2, h3, h4, h5]
  · intro h
    cases hr : PetOut.from_mongo d with
    | error e => exact ⟨e, rfl⟩
    | ok o =>
        obtain ⟨-, hnm, hsp, hay, hg, hsz, -, -, -⟩ := from_mongo_ok hr
        rcases h with h | h | h | h | h
        · rw [h] at hnm; exact Option.noConfusion hnm
        · rw [h] at hsp; exact Option.noConfusion hsp
        · rw [h] at hay; exact Option.noConfusion hay
        · rw [h] at hg; exact Option.noConfusion hg
        · rw [h] at hsz; exact Option.noConfusion hsz

/-- Witness for the amended C8: a fully populated document maps
pass-through, and a document missing `species` is rejected. -/
theorem from_mongo_passthrough_witness :
    PetOut.from_mongo wFree =
      .ok { id := idStr wFree._id, name := "Bella", species := "Cat",
            age_years := 1, gender := "Female", size := "Small",
            description := wFree.description, photo_url := wFree.photo_url,
            location := wFree.location,
            is_adopted := wFree.is_adopted.getD false } ∧
    ∃ e, PetOut.from_mongo { _id := 4, name := some "Ghost" } = .error e :=
  ⟨(from_mongo_passthrough wFree).1 "Bella" "Cat" 1 "Female" "Small"
      rfl rfl rfl rfl rfl,
   (from_mongo_passthrough { _id := 4, name := some "Ghost" }).2
      (Or.inr (Or.inl rfl))⟩
